import Mathlib

/-!
Shallow embedding of the retrospect Zephyr application
(`src/zephyr-app/src/wamr_integration.c`, `network_handler.c`,
`wasmbed_protocol.c`, `main.c`) and verification of the specification
claims about it.

Modelling conventions:
* The WAMR execution engine and the Zephyr socket layer are external
  capabilities.  Their responses (`wasm_runtime_load`, `wasm_runtime_instantiate`,
  `wasm_runtime_create_exec_env`, `wasm_runtime_call_wasm`,
  `zsock_socket`, `zsock_connect`, `zsock_send`, `zsock_recv`, ...) are passed to
  each embedded function as explicit oracle arguments, so one Lean call models
  one C call together with the environment's behaviour during it.
* Opaque C handles (`wasm_module_t`, `wasm_module_inst_t`, `wasm_exec_env_t`)
  are modelled as `Nat`, with `0` playing the role of `NULL`.
* Every `return -1;` site of a C function is mapped to a distinct error
  constructor named after the log message printed at that site; `return 0;`
  maps to `.ok`.  The C functions communicate results through out-pointers;
  the embedding returns them, with `Option` recording whether the out value
  was written.
* Fixed-size C arrays become lists of the corresponding length
  (`MAX_MODULES = MAX_INSTANCES = 16`), updated with `List.set` and scanned
  with `List.findIdx?` / `List.find?` exactly where the C code loops.
-/

/-! ### Registry data model (`wamr_integration.c`, lines 22-42) -/

def MAX_MODULES : Nat := 16

def MAX_INSTANCES : Nat := 16

/-- `next_module_id` and `next_instance_id` are `uint32_t` in C: the
post-increment `next_module_id++` wraps modulo 2^32. -/
def UINT32_MOD : Nat := 4294967296

/-- `module_entry_t`: one slot of the module registry. -/
structure module_entry_t where
  id : Nat
  module : Nat
  in_use : Bool
deriving Repr, DecidableEq

/-- `instance_entry_t`: one slot of the instance registry.  The C field
`instance` is called `inst` because `instance` is a Lean keyword. -/
structure instance_entry_t where
  id : Nat
  inst : Nat
  exec_env : Nat
  in_use : Bool
deriving Repr, DecidableEq

/-- The whole mutable state of `wamr_integration.c`: the `wamr_initialized`
flag and the static registries with their id counters. -/
structure WamrState where
  wamr_initialized : Bool
  modules : List module_entry_t
  instances : List instance_entry_t
  next_module_id : Nat
  next_instance_id : Nat
deriving Repr, DecidableEq

/-- C static initialisation: everything zeroed except the id counters,
which start at 1 (`static uint32_t next_module_id = 1;`). -/
def wamrBootState : WamrState :=
  { wamr_initialized := false
    modules := List.replicate MAX_MODULES ⟨0, 0, false⟩
    instances := List.replicate MAX_INSTANCES ⟨0, 0, 0, false⟩
    next_module_id := 1
    next_instance_id := 1 }

/-- One error constructor per `return -1;` site in `wamr_integration.c`,
named after the message logged there. -/
inductive WamrErr where
  | NotInitialized       -- "WAMR not initialized"
  | InvalidParams        -- "Invalid parameters"
  | ResourceExhausted    -- "No free module slots" / "No free instance slots"
  | CompileError         -- "Failed to load WASM module"
  | NotFound             -- "Module not found" / "Instance not found"
  | InstantiationError   -- "Failed to instantiate WASM module"
  | ExecEnvError         -- "Failed to create execution environment"
  | FunctionNotFound     -- "Function not found"
  | CallFailed           -- "WASM exception" / "Failed to call WASM function"
deriving Repr, DecidableEq

/-- The `for` loops searching the registries for the first free slot
(`!modules[i].in_use`). -/
def findFreeModuleSlot (entries : List module_entry_t) : Option Nat :=
  entries.findIdx? (fun e => !e.in_use)

def findFreeInstanceSlot (entries : List instance_entry_t) : Option Nat :=
  entries.findIdx? (fun e => !e.in_use)

/-- `wamr_init` (lines 45-79).  `engineOk` is the oracle for
`wasm_runtime_full_init`.  Returns the C `int` result and the new state.
Note the id counters are NOT reset by the `memset` of the registries. -/
def wamr_init (engineOk : Bool) (st : WamrState) : Int × WamrState :=
  if st.wamr_initialized then
    (0, st)
  else if !engineOk then
    (-1, st)
  else
    (0, { st with
            modules := List.replicate MAX_MODULES ⟨0, 0, false⟩
            instances := List.replicate MAX_INSTANCES ⟨0, 0, 0, false⟩
            wamr_initialized := true })

/-- `wamr_load_module` (lines 82-132).  `engineLoad` is the oracle for
`wasm_runtime_load` (`none` = NULL = engine rejected the bytecode);
`bytes_null`/`mid_null` model NULL argument pointers.  Returns the
written `*module_id` on success, together with the new registry state;
the `uint32_t` post-increment of `next_module_id` wraps mod 2^32. -/
def wamr_load_module (engineLoad : Option Nat) (bytes_null : Bool)
    (wasm_size : Nat) (mid_null : Bool) (st : WamrState) :
    Except WamrErr Nat × WamrState :=
  if !st.wamr_initialized then
    (.error .NotInitialized, st)
  else if bytes_null || wasm_size == 0 || mid_null then
    (.error .InvalidParams, st)
  else
    match findFreeModuleSlot st.modules with
    | none => (.error .ResourceExhausted, st)
    | some slot =>
      match engineLoad with
      | none => (.error .CompileError, st)
      | some handle =>
        (.ok st.next_module_id,
         { st with
             modules := st.modules.set slot ⟨st.next_module_id, handle, true⟩
             next_module_id := (st.next_module_id + 1) % UINT32_MOD })

/-- `wamr_instantiate` (lines 135-210).  `engineInst` is the oracle for
`wasm_runtime_instantiate`, `engineEnv` for `wasm_runtime_create_exec_env`.
The third component lists the handles passed to
`wasm_runtime_deinstantiate` during the call (the cleanup on the
exec-env failure path).  The `uint32_t` post-increment of
`next_instance_id` wraps mod 2^32. -/
def wamr_instantiate (engineInst : Option Nat) (engineEnv : Option Nat)
    (module_id : Nat) (st : WamrState) :
    Except WamrErr Nat × WamrState × List Nat :=
  if !st.wamr_initialized then
    (.error .NotInitialized, st, [])
  else
    -- the search loop leaves `module` = NULL when no slot matches
    let module : Nat :=
      match st.modules.find? (fun e => e.in_use && e.id == module_id) with
      | some e => e.module
      | none => 0
    if module == 0 then
      (.error .NotFound, st, [])
    else
      match findFreeInstanceSlot st.instances with
      | none => (.error .ResourceExhausted, st, [])
      | some slot =>
        match engineInst with
        | none => (.error .InstantiationError, st, [])
        | some inst =>
          match engineEnv with
          | none =>
            -- wasm_runtime_deinstantiate(instance); return -1;
            (.error .ExecEnvError, st, [inst])
          | some env =>
            (.ok st.next_instance_id,
             { st with
                 instances :=
                   st.instances.set slot ⟨st.next_instance_id, inst, env, true⟩
                 next_instance_id := (st.next_instance_id + 1) % UINT32_MOD },
             [])

/-- `wamr_call_function` (lines 213-266).  `engineLookup` is the oracle for
`wasm_runtime_lookup_function`; `engineCall` for `wasm_runtime_call_wasm`
(`none` = trap/false, `some rv` = success with result vector `rv` left on
the WASM stack).  The caller-supplied `results` buffer is returned as the
final value of that buffer: the C code never writes to it (the TODO at
lines 259-261 leaves the engine's return values unread). -/
def wamr_call_function (engineLookup : Option Nat)
    (engineCall : Option (List Nat)) (instance_id : Nat)
    (function_name : String) (args : List Nat) (results : List Nat)
    (results_count : Nat) (st : WamrState) :
    Except WamrErr (List Nat) × WamrState :=
  if !st.wamr_initialized then
    (.error .NotInitialized, st)
  else
    -- the search loop leaves instance = exec_env = NULL when no slot matches
    let found := st.instances.find? (fun e => e.in_use && e.id == instance_id)
    let inst : Nat := match found with | some e => e.inst | none => 0
    let env : Nat := match found with | some e => e.exec_env | none => 0
    if inst == 0 || env == 0 then
      (.error .NotFound, st)
    else
      match engineLookup with
      | none => (.error .FunctionNotFound, st)
      | some _ =>
        match engineCall with
        | none => (.error .CallFailed, st)
        | some _ =>
          -- results buffer is ignored; returned unmodified
          (.ok results, st)

/-- `wamr_process` (lines 269-276): checks the flag, then does nothing. -/
def wamr_process (st : WamrState) : WamrState :=
  st

/-- `wamr_cleanup` (lines 279-315): frees every in-use slot and clears the
`wamr_initialized` flag; the id counters are untouched. -/
def wamr_cleanup (st : WamrState) : WamrState :=
  if !st.wamr_initialized then
    st
  else
    { st with
        wamr_initialized := false
        modules := st.modules.map (fun e => { e with in_use := false })
        instances := st.instances.map (fun e => { e with in_use := false }) }

/-! ### Transport layer (`network_handler.c`) -/

/-- The mutable state of `network_handler.c`: the init flag and the socket
file descriptor (`-1` = no socket).  The spec's `ConnectionState` maps to
it as: `Connected` iff `socket_fd ≥ 0`, `Disconnected` iff `socket_fd < 0`. -/
structure NetState where
  network_initialized : Bool
  socket_fd : Int
deriving Repr, DecidableEq

/-- The spec's `Connected` state expressed on the embedded transport state. -/
def NetState.connected (ns : NetState) : Bool :=
  ns.socket_fd ≥ 0

/-- Response of one `zsock_recv` call: either `n` bytes of data (`n = 0` is
orderly peer shutdown), or a failure, with `again = true` when `errno` is
`EAGAIN`/`EWOULDBLOCK` (no data pending on the non-blocking socket) and
`again = false` on a genuine connection failure. -/
inductive RecvResult where
  | data (bytes : List Nat)
  | fail (again : Bool)
deriving Repr, DecidableEq

/-- `network_connect_tls` (lines 152-211).  Oracles: `socketRes` is the fd
returned by `zsock_socket` (negative = failure), `ptonOk` the outcome of
`net_addr_pton`, `connectOk` the outcome of `zsock_connect` (which performs
the TLS handshake); the result of the `TLS_HOSTNAME` `zsock_setsockopt` is
only logged, so it does not appear.  Returns the C `int` result and the
new transport state. -/
def network_connect_tls (socketRes : Int) (ptonOk : Bool) (connectOk : Bool)
    (ns : NetState) : Int × NetState :=
  if !ns.network_initialized then
    (-1, ns)
  else
    -- close existing socket if any, then socket_fd = zsock_socket(...)
    let ns1 : NetState := { ns with socket_fd := socketRes }
    if socketRes < 0 then
      (-1, ns1)
    else if !ptonOk then
      (-1, { ns1 with socket_fd := -1 })
    else if !connectOk then
      (-1, { ns1 with socket_fd := -1 })
    else
      (0, ns1)

/-- `network_send` (lines 214-232).  `sendRes` is the oracle for the single
`zsock_send` call: the byte count written, or negative on failure.  A short
write (`0 ≤ sendRes < data_len`) is only logged as a warning; the function
still returns 0 and performs no further send. -/
def network_send (sendRes : Int) (data_len : Nat) (ns : NetState) : Int :=
  if ns.socket_fd < 0 then
    -1
  else if sendRes < 0 then
    -1
  else
    0

/-- `network_receive` (lines 235-255).  `recvRes` is the oracle for the
single `zsock_recv` call.  Returns the C `int` result, the value written
through `*received_len` (`none` when the out-parameter is not written),
and the new transport state (the function never touches `socket_fd`). -/
def network_receive (recvRes : RecvResult) (ns : NetState) :
    Int × Option Nat × NetState :=
  if ns.socket_fd < 0 then
    (-1, none, ns)
  else
    match recvRes with
    | .fail true => (0, some 0, ns)
    | .fail false => (-1, none, ns)
    | .data bytes => (0, some bytes.length, ns)

/-- `network_process` (lines 86-99): only logs; no state change. -/
def network_process (ns : NetState) : NetState :=
  ns

/-! ### `atoi` and endpoint parsing (`wasmbed_protocol.c`) -/

/-- The whitespace characters accepted by C `isspace`. -/
def cIsSpace (c : Char) : Bool :=
  c = ' ' || c = '\t' || c = '\n' || c = '\x0b' || c = '\x0c' || c = '\r'

/-- Value of a maximal leading digit run. -/
def digitsValue (s : List Char) : Nat :=
  (s.takeWhile Char.isDigit).foldl (fun acc c => acc * 10 + (c.toNat - 48)) 0

/-- C `atoi`: skip whitespace, optional sign, maximal digit run (0 when
there is none). -/
def atoi (s : List Char) : Int :=
  let s1 := s.dropWhile cIsSpace
  match s1 with
  | '-' :: rest => -(digitsValue rest : Int)
  | '+' :: rest => (digitsValue rest : Int)
  | _ => (digitsValue s1 : Int)

/-- `parse_endpoint` (`wasmbed_protocol.c`, lines 47-77).  The endpoint is
the C string's characters (no NUL); `ep_null`/`host_null`/`port_null` model
NULL argument pointers and `host_len` the size of the caller's host buffer.
Returns `none` for `-1`, or the written host buffer and `*port` for `0`.
The port is `(uint16_t)atoi(colon + 1)`, i.e. the `atoi` value reduced
modulo 2^16. -/
def parse_endpoint (ep_null host_null port_null : Bool)
    (endpoint : List Char) (host_len : Nat) : Option (List Char × Nat) :=
  if ep_null || host_null || port_null then
    none
  else
    match endpoint.findIdx? (fun c => c = ':') with
    | none => none
    | some colon =>
      if host_len ≤ colon then
        none
      else
        let port : Nat := ((atoi (endpoint.drop (colon + 1))) % 65536).toNat
        if port = 0 then
          none
        else
          some (endpoint.take colon, port)

/-! ### Protocol handler (`wasmbed_protocol.c`) -/

/-- The mutable state of `wasmbed_protocol.c`. -/
structure ProtocolState where
  protocol_initialized : Bool
  gateway_endpoint : List Char
  gateway_connected : Bool
deriving Repr, DecidableEq

/-- `wasmbed_protocol_handle_message` (lines 122-149).  After the init and
NULL/empty checks it only logs the first 32 bytes and returns 0: no length
field is decoded, no size bound is enforced, and no registry call is made,
so it neither takes nor produces a `WamrState`. -/
def wasmbed_protocol_handle_message (ps : ProtocolState)
    (data : Option (List Nat)) : Int :=
  if !ps.protocol_initialized then
    -1
  else
    match data with
    | none => -1
    | some d => if d.length == 0 then -1 else 0

/-! ### Control loop (`main.c`, lines 57-73) -/

/-- The state touched by one iteration of the main loop. -/
structure SysState where
  net : NetState
  proto : ProtocolState
  wamr : WamrState
deriving Repr, DecidableEq

/-- One iteration of the `while (1)` loop in `main`: `network_process`,
`network_receive` into a 4096-byte buffer, `wasmbed_protocol_handle_message`
when data arrived, `wamr_process`, sleep.  `recvRes` is the oracle for the
iteration's `zsock_recv`.  No branch of the body calls any connect
function. -/
def main_loop_iter (recvRes : RecvResult) (s : SysState) : SysState :=
  let net1 := network_process s.net
  let r := network_receive recvRes net1
  let net2 := r.2.2
  let received_len := match r.2.1 with | some n => n | none => 0
  let _ :=
    if r.1 == 0 && received_len > 0 then
      wasmbed_protocol_handle_message s.proto
        (some ((match recvRes with | .data b => b | .fail _ => []).take 4096))
    else 0
  { s with net := net2, wamr := wamr_process s.wamr }

/-- The main loop run over a list of per-iteration recv oracles. -/
def main_loop_run (rs : List RecvResult) (s : SysState) : SysState :=
  rs.foldl (fun st r => main_loop_iter r st) s

/-! ### Concrete states used by witnesses and counterexamples -/

/-- State after a successful `wamr_init` at boot. -/
def stInit : WamrState := (wamr_init true wamrBootState).2

/-- State after additionally loading one module (engine handle 7):
module id 1 is issued. -/
def stLoaded : WamrState := (wamr_load_module (some 7) false 100 false stInit).2

/-- State after additionally instantiating module 1 (engine instance
handle 3, exec env handle 4): instance id 1 is issued. -/
def stInst : WamrState := (wamr_instantiate (some 3) (some 4) 1 stLoaded).2.1

/-- A registry whose 16 module slots are all in use. -/
def stFullModules : WamrState :=
  { wamr_initialized := true
    modules := List.replicate MAX_MODULES ⟨1, 1, true⟩
    instances := List.replicate MAX_INSTANCES ⟨0, 0, 0, false⟩
    next_module_id := 17
    next_instance_id := 1 }

/-- A connected transport state (`socket_fd = 3`). -/
def nsConn : NetState := ⟨true, 3⟩

/-- A disconnected transport state. -/
def nsDisc : NetState := ⟨true, -1⟩

/-- An initialised protocol handler state. -/
def psReady : ProtocolState := ⟨true, [], false⟩

/-- The configured maximum message size: the 4096-byte receive buffer in
`main.c` is the only size bound in the program, and the spec's example
bound. -/
def MAX_MESSAGE_SIZE : Nat := 4096

/-- Modelled from the spec: §6 wire framing says each message starts with a
4-byte big-endian length field.  The repository never implements frame
decoding (`wasmbed_protocol_handle_message` leaves it as a TODO), so the
declared-length reader is taken from the spec's words. -/
def frame_declared_length (d : List Nat) : Nat :=
  match d with
  | b0 :: b1 :: b2 :: b3 :: _ => ((b0 * 256 + b1) * 256 + b2) * 256 + b3
  | _ => 0

/-! ### Claim theorems -/

/-- C1 (code bug): a successful `wamr_call_function` does NOT return the
function's result vector.  With instance 1 holding an `add` function whose
engine call succeeds with result vector `[8]` on arguments `[5, 3]`, the
call reports success but leaves the caller's 1-slot results buffer at its
old contents `[0]`, not `[8]`: the code never reads the engine's return
values (TODO at `wamr_integration.c` lines 259-261). -/
theorem wamr_call_function_discards_results :
    wamr_call_function (some 9) (some [8]) 1 "add" [5, 3] [0] 1 stInst =
      (.ok [0], stInst) ∧
    (wamr_call_function (some 9) (some [8]) 1 "add" [5, 3] [0] 1 stInst).1 ≠
      .ok [8] := by
  have h1 : (wamr_call_function (some 9) (some [8]) 1 "add" [5, 3] [0] 1
      stInst).1 = .ok [0] := rfl
  refine ⟨rfl, ?_⟩
  rw [h1]
  simp

/-- C4 (code bug): `wasmbed_protocol_handle_message` accepts (returns 0 for)
a frame whose 4-byte big-endian length field declares 65536 bytes, far above
the 4096-byte bound: the handler decodes no length field and has no
rejection path for oversized frames. -/
theorem handle_message_accepts_oversized_frame :
    frame_declared_length [0, 1, 0, 0, 1] = 65536 ∧
    MAX_MESSAGE_SIZE < frame_declared_length [0, 1, 0, 0, 1] ∧
    wasmbed_protocol_handle_message psReady (some [0, 1, 0, 0, 1]) = 0 := by
  decide

/-- C5 (code bug): `network_send` on a connected socket reports success
(returns 0) when the single underlying `zsock_send` writes only 2 of the 4
requested bytes; the short write is merely logged and never retried. -/
theorem network_send_accepts_partial_write :
    network_send 2 4 nsConn = 0 ∧ (2 : Int) < 4 := by
  decide

/-- C6: on a connected socket, `network_receive` with no pending data
(`zsock_recv` failing with `EAGAIN`/`EWOULDBLOCK`) returns 0 with
`*received_len = 0` and leaves the transport state (hence `Connected`)
unchanged; the -1 error return happens only for a genuine `zsock_recv`
failure. -/
theorem network_receive_no_data_is_success (ns : NetState)
    (h : ns.connected = true) :
    network_receive (.fail true) ns = (0, some 0, ns) ∧
    (network_receive (.fail true) ns).2.2.connected = true ∧
    (∀ r : RecvResult, (network_receive r ns).1 = -1 → r = .fail false) := by
  have h' : ¬ ns.socket_fd < 0 := by
    have := of_decide_eq_true h
    omega
  refine ⟨?_, ?_, ?_⟩
  · simp [network_receive, if_neg h']
  · simp [network_receive, if_neg h', h]
  · intro r hr
    cases r with
    | data bytes => simp [network_receive, if_neg h'] at hr
    | fail again =>
      cases again with
      | true => simp [network_receive, if_neg h'] at hr
      | false => rfl

/-- Witness for C6 at the concrete connected state `nsConn`. -/
theorem network_receive_no_data_witness :
    nsConn.connected = true ∧
    network_receive (.fail true) nsConn = (0, some 0, nsConn) :=
  ⟨by decide, (network_receive_no_data_is_success nsConn (by decide)).1⟩

/-- C9: while `wamr_initialized` is false, `wamr_load_module`,
`wamr_instantiate` and `wamr_call_function` all fail on their first check
and return the registry state unchanged. -/
theorem wamr_ops_require_init (st : WamrState)
    (h : st.wamr_initialized = false) (el : Option Nat) (bn : Bool)
    (sz : Nat) (mn : Bool) (ei ee : Option Nat) (mid : Nat)
    (lk : Option Nat) (cl : Option (List Nat)) (iid : Nat) (f : String)
    (a r : List Nat) (rc : Nat) :
    wamr_load_module el bn sz mn st = (.error .NotInitialized, st) ∧
    wamr_instantiate ei ee mid st = (.error .NotInitialized, st, []) ∧
    wamr_call_function lk cl iid f a r rc st = (.error .NotInitialized, st) := by
  unfold wamr_load_module wamr_instantiate wamr_call_function
  simp [h]

/-- Witness for C9 at the boot state, which is not initialised. -/
theorem wamr_ops_require_init_witness :
    wamrBootState.wamr_initialized = false ∧
    wamr_load_module (some 7) false 100 false wamrBootState =
      (.error .NotInitialized, wamrBootState) :=
  ⟨rfl, (wamr_ops_require_init wamrBootState rfl (some 7) false 100 false
    none none 1 none none 1 "f" [] [] 0).1⟩

/-- Case analysis of `wamr_instantiate`: every failing branch returns the
state unchanged with an empty release list, except the exec-env branch
which releases exactly the instance handle it had created; the success
branch issues `next_instance_id`. -/
theorem wamr_instantiate_cases (ei ee : Option Nat) (mid : Nat)
    (st : WamrState) :
    (∃ e, wamr_instantiate ei ee mid st = (.error e, st, []) ∧
       e ≠ WamrErr.ExecEnvError) ∨
    (∃ ih, ei = some ih ∧ ee = none ∧
       wamr_instantiate ei ee mid st = (.error .ExecEnvError, st, [ih])) ∨
    (∃ ih env st2, ei = some ih ∧ ee = some env ∧
       wamr_instantiate ei ee mid st = (.ok st.next_instance_id, st2, []) ∧
       st2.next_instance_id = (st.next_instance_id + 1) % UINT32_MOD ∧
       st2.next_module_id = st.next_module_id) := by
  simp only [wamr_instantiate]
  split
  · exact Or.inl ⟨.NotInitialized, rfl, by simp⟩
  split
  · exact Or.inl ⟨.NotFound, rfl, by simp⟩
  split
  · exact Or.inl ⟨.ResourceExhausted, rfl, by simp⟩
  cases ei with
  | none => exact Or.inl ⟨.InstantiationError, rfl, by simp⟩
  | some ih =>
    cases ee with
    | none => exact Or.inr (Or.inl ⟨ih, rfl, rfl, rfl⟩)
    | some env => exact Or.inr (Or.inr ⟨ih, env, _, rfl, rfl, rfl, rfl, rfl⟩)

/-- C10: whenever `wamr_instantiate` fails, the registry state is returned
unchanged (no slot marked in use, `next_instance_id` untouched), and in the
exec-env-creation failure case the freshly created runtime instance is the
one handle passed to `wasm_runtime_deinstantiate`. -/
theorem wamr_instantiate_atomic_on_failure (ei ee : Option Nat) (mid : Nat)
    (st : WamrState) (e : WamrErr)
    (h : (wamr_instantiate ei ee mid st).1 = .error e) :
    (wamr_instantiate ei ee mid st).2.1 = st ∧
    (e = .ExecEnvError →
      ∃ ih, ei = some ih ∧ ee = none ∧
        (wamr_instantiate ei ee mid st).2.2 = [ih]) := by
  rcases wamr_instantiate_cases ei ee mid st with
    ⟨e2, heq, hne⟩ | ⟨ih, hei, hee, heq⟩ | ⟨ih, env, st2, hei, hee, heq, -, -⟩
  · rw [heq] at h ⊢
    injection h with h2
    subst h2
    exact ⟨rfl, fun hc => absurd hc hne⟩
  · rw [heq]
    exact ⟨rfl, fun _ => ⟨ih, hei, hee, rfl⟩⟩
  · rw [heq] at h
    cases h

/-- Witness for C10 at `stLoaded`: exec-env creation fails after the engine
produced instance handle 3, which is then released; the registry is
unchanged. -/
theorem wamr_instantiate_atomic_witness :
    (wamr_instantiate (some 3) none 1 stLoaded).1 =
      .error WamrErr.ExecEnvError ∧
    (wamr_instantiate (some 3) none 1 stLoaded).2.1 = stLoaded ∧
    (wamr_instantiate (some 3) none 1 stLoaded).2.2 = [3] :=
  ⟨rfl,
   (wamr_instantiate_atomic_on_failure (some 3) none 1 stLoaded
     WamrErr.ExecEnvError rfl).1,
   by
    rcases (wamr_instantiate_atomic_on_failure (some 3) none 1 stLoaded
      WamrErr.ExecEnvError rfl).2 rfl with ⟨ih, hih, -, hrel⟩
    injection hih with h3
    rw [hrel, h3]⟩

/-- A registry whose slots are all occupied has no free slot. -/
theorem findFreeModuleSlot_eq_none (l : List module_entry_t)
    (h : ∀ e ∈ l, e.in_use = true) : findFreeModuleSlot l = none := by
  simp only [findFreeModuleSlot, List.findIdx?_eq_none_iff]
  intro e he
  simp [h e he]

/-- C2: with the runtime initialised and valid parameters, once all
`MAX_MODULES` module slots are occupied the next `wamr_load_module` fails
with the resource-exhausted error and returns every registry field
unchanged; and a call on which the engine rejects the bytecode
(`wasm_runtime_load` returning NULL) also leaves the state unchanged,
failing with the compile error (or resource exhaustion when the registry
was already full, whose check comes first). -/
theorem wamr_load_module_failure_preserves_registry (st : WamrState)
    (el : Option Nat) (sz : Nat) (hready : st.wamr_initialized = true)
    (hsz : sz ≠ 0) :
    ((∀ e ∈ st.modules, e.in_use = true) →
       wamr_load_module el false sz false st =
         (.error .ResourceExhausted, st)) ∧
    ((wamr_load_module none false sz false st).2 = st ∧
      ∃ err, (wamr_load_module none false sz false st).1 = .error err ∧
        (err = WamrErr.ResourceExhausted ∨ err = WamrErr.CompileError)) := by
  constructor
  · intro hfull
    simp only [wamr_load_module, hready, findFreeModuleSlot_eq_none st.modules hfull]
    simp [hsz]
  · simp only [wamr_load_module, hready]
    simp only [Bool.not_true, Bool.false_eq_true, if_false]
    cases hf : findFreeModuleSlot st.modules with
    | none => simp [hsz, hf]
    | some slot => simp [hsz, hf]

/-- Witness for C2: at the fully occupied registry `stFullModules` the next
load fails resource-exhausted with the state unchanged, and at `stInit`
(free slots available) an engine rejection leaves the state unchanged. -/
theorem wamr_load_module_failure_witness :
    stFullModules.wamr_initialized = true ∧ (100 : Nat) ≠ 0 ∧
    (∀ e ∈ stFullModules.modules, e.in_use = true) ∧
    wamr_load_module (some 7) false 100 false stFullModules =
      (.error .ResourceExhausted, stFullModules) ∧
    (wamr_load_module none false 100 false stInit).2 = stInit :=
  ⟨rfl, by decide, by decide,
   (wamr_load_module_failure_preserves_registry stFullModules (some 7) 100
     rfl (by decide)).1 (by decide),
   ((wamr_load_module_failure_preserves_registry stInit none 100
     rfl (by decide)).2).1⟩

/-! ### Operation traces over the WAMR registry (for the id claims) -/

/-- One call into `wamr_integration.c`, together with the engine's
responses during that call. -/
inductive WamrOp where
  | opInit (engineOk : Bool)
  | opLoad (engineLoad : Option Nat) (bytes_null : Bool) (wasm_size : Nat)
      (mid_null : Bool)
  | opInst (engineInst engineEnv : Option Nat) (module_id : Nat)
  | opCall (engineLookup : Option Nat) (engineCall : Option (List Nat))
      (instance_id : Nat) (function_name : String)
      (args results : List Nat) (results_count : Nat)
  | opProcess
  | opCleanup
deriving Repr

/-- State transition of one call. -/
def wamrStep (op : WamrOp) (st : WamrState) : WamrState :=
  match op with
  | .opInit ok => (wamr_init ok st).2
  | .opLoad el bn sz mn => (wamr_load_module el bn sz mn st).2
  | .opInst ei ee mid => (wamr_instantiate ei ee mid st).2.1
  | .opCall lk cl iid f a r rc => (wamr_call_function lk cl iid f a r rc st).2
  | .opProcess => wamr_process st
  | .opCleanup => wamr_cleanup st

/-- The module id written through `*module_id` when the call is a
successful `wamr_load_module`, nothing otherwise. -/
def loadIdOf (op : WamrOp) (st : WamrState) : List Nat :=
  match op with
  | .opLoad el bn sz mn =>
    match (wamr_load_module el bn sz mn st).1 with
    | .ok id => [id]
    | .error _ => []
  | _ => []

/-- The instance id written through `*instance_id` when the call is a
successful `wamr_instantiate`, nothing otherwise. -/
def instIdOf (op : WamrOp) (st : WamrState) : List Nat :=
  match op with
  | .opInst ei ee mid =>
    match (wamr_instantiate ei ee mid st).1 with
    | .ok id => [id]
    | .error _ => []
  | _ => []

/-- All module ids issued along a trace, in call order. -/
def loadIdsFrom : List WamrOp → WamrState → List Nat
  | [], _ => []
  | op :: ops, st => loadIdOf op st ++ loadIdsFrom ops (wamrStep op st)

/-- All instance ids issued along a trace, in call order. -/
def instIdsFrom : List WamrOp → WamrState → List Nat
  | [], _ => []
  | op :: ops, st => instIdOf op st ++ instIdsFrom ops (wamrStep op st)

/-- Case analysis of `wamr_load_module`: every failing branch returns the
state unchanged; the success branch (which needs the engine to accept the
bytecode) issues `next_module_id` and bumps the counter. -/
theorem wamr_load_module_cases (el : Option Nat) (bn : Bool) (sz : Nat)
    (mn : Bool) (st : WamrState) :
    (∃ e, wamr_load_module el bn sz mn st = (.error e, st)) ∨
    (∃ h st2, el = some h ∧
       wamr_load_module el bn sz mn st = (.ok st.next_module_id, st2) ∧
       st2.next_module_id = (st.next_module_id + 1) % UINT32_MOD ∧
       st2.next_instance_id = st.next_instance_id) := by
  cases el with
  | none =>
    unfold wamr_load_module
    split
    · exact Or.inl ⟨_, rfl⟩
    split
    · exact Or.inl ⟨_, rfl⟩
    split
    · exact Or.inl ⟨_, rfl⟩
    · exact Or.inl ⟨_, rfl⟩
  | some h =>
    unfold wamr_load_module
    split
    · exact Or.inl ⟨_, rfl⟩
    split
    · exact Or.inl ⟨_, rfl⟩
    split
    · exact Or.inl ⟨_, rfl⟩
    · exact Or.inr ⟨h, _, rfl, rfl, rfl, rfl⟩

/-- `wamr_call_function` never changes the registry state. -/
theorem wamr_call_function_preserves_state (lk : Option Nat)
    (cl : Option (List Nat)) (iid : Nat) (f : String) (a r : List Nat)
    (rc : Nat) (st : WamrState) :
    (wamr_call_function lk cl iid f a r rc st).2 = st := by
  simp only [wamr_call_function]
  split
  · rfl
  split
  · rfl
  cases lk with
  | none => rfl
  | some h =>
    cases cl with
    | none => rfl
    | some rv => rfl

/-- `wamr_init` never changes `next_module_id` or `next_instance_id`. -/
theorem wamr_init_preserves_counters (ok : Bool) (st : WamrState) :
    (wamr_init ok st).2.next_module_id = st.next_module_id ∧
    (wamr_init ok st).2.next_instance_id = st.next_instance_id := by
  simp only [wamr_init]
  split
  · exact ⟨rfl, rfl⟩
  split
  · exact ⟨rfl, rfl⟩
  · exact ⟨rfl, rfl⟩

/-- `wamr_cleanup` never changes `next_module_id` or `next_instance_id`. -/
theorem wamr_cleanup_preserves_counters (st : WamrState) :
    (wamr_cleanup st).next_module_id = st.next_module_id ∧
    (wamr_cleanup st).next_instance_id = st.next_instance_id := by
  simp only [wamr_cleanup]
  split
  · exact ⟨rfl, rfl⟩
  · exact ⟨rfl, rfl⟩

/-- A successful load issues exactly `next_module_id` and bumps the
counter; every other outcome of any call leaves `next_module_id` intact. -/
theorem loadIdOf_spec (op : WamrOp) (st : WamrState) :
    (loadIdOf op st = [] ∧
      (wamrStep op st).next_module_id = st.next_module_id) ∨
    (loadIdOf op st = [st.next_module_id] ∧
      (wamrStep op st).next_module_id =
        (st.next_module_id + 1) % UINT32_MOD) := by
  cases op with
  | opLoad el bn sz mn =>
    rcases wamr_load_module_cases el bn sz mn st with
      ⟨e, heq⟩ | ⟨h, st2, hel, heq, hnext, -⟩
    · exact Or.inl ⟨by simp [loadIdOf, heq], by simp [wamrStep, heq]⟩
    · exact Or.inr ⟨by simp [loadIdOf, heq], by simp [wamrStep, heq, hnext]⟩
  | opInit ok =>
    exact Or.inl ⟨rfl, (wamr_init_preserves_counters ok st).1⟩
  | opInst ei ee mid =>
    rcases wamr_instantiate_cases ei ee mid st with
      ⟨e2, heq, -⟩ | ⟨ih, -, -, heq⟩ | ⟨ih, env, st2, -, -, heq, -, hmod⟩
    · exact Or.inl ⟨rfl, by simp [wamrStep, heq]⟩
    · exact Or.inl ⟨rfl, by simp [wamrStep, heq]⟩
    · exact Or.inl ⟨rfl, by simp [wamrStep, heq, hmod]⟩
  | opCall lk cl iid f a r rc =>
    refine Or.inl ⟨rfl, ?_⟩
    show (wamr_call_function lk cl iid f a r rc st).2.next_module_id = _
    rw [wamr_call_function_preserves_state]
  | opProcess => exact Or.inl ⟨rfl, rfl⟩
  | opCleanup =>
    exact Or.inl ⟨rfl, (wamr_cleanup_preserves_counters st).1⟩

/-- A successful instantiate issues exactly `next_instance_id` and bumps
the counter mod 2^32; every other outcome of any call leaves
`next_instance_id` intact. -/
theorem instIdOf_spec (op : WamrOp) (st : WamrState) :
    (instIdOf op st = [] ∧
      (wamrStep op st).next_instance_id = st.next_instance_id) ∨
    (instIdOf op st = [st.next_instance_id] ∧
      (wamrStep op st).next_instance_id =
        (st.next_instance_id + 1) % UINT32_MOD) := by
  cases op with
  | opInst ei ee mid =>
    rcases wamr_instantiate_cases ei ee mid st with
      ⟨e2, heq, -⟩ | ⟨ih, -, -, heq⟩ | ⟨ih, env, st2, -, -, heq, hinst, -⟩
    · exact Or.inl ⟨by simp [instIdOf, heq], by simp [wamrStep, heq]⟩
    · exact Or.inl ⟨by simp [instIdOf, heq], by simp [wamrStep, heq]⟩
    · exact Or.inr ⟨by simp [instIdOf, heq], by simp [wamrStep, heq, hinst]⟩
  | opLoad el bn sz mn =>
    rcases wamr_load_module_cases el bn sz mn st with
      ⟨e, heq⟩ | ⟨h, st2, hel, heq, -, hinst⟩
    · exact Or.inl ⟨rfl, by simp [wamrStep, heq]⟩
    · exact Or.inl ⟨rfl, by simp [wamrStep, heq, hinst]⟩
  | opInit ok =>
    exact Or.inl ⟨rfl, (wamr_init_preserves_counters ok st).2⟩
  | opCall lk cl iid f a r rc =>
    refine Or.inl ⟨rfl, ?_⟩
    show (wamr_call_function lk cl iid f a r rc st).2.next_instance_id = _
    rw [wamr_call_function_preserves_state]
  | opProcess => exact Or.inl ⟨rfl, rfl⟩
  | opCleanup =>
    exact Or.inl ⟨rfl, (wamr_cleanup_preserves_counters st).2⟩

/-- Under the no-wrap side condition (starting counter plus number of ids
issued within `uint32_t` range), the module ids issued along a trace are
strictly increasing and bounded below by the starting counter. -/
theorem loadIdsFrom_pairwise_lb (ops : List WamrOp) (st : WamrState)
    (hm : st.next_module_id + (loadIdsFrom ops st).length ≤ UINT32_MOD) :
    (loadIdsFrom ops st).Pairwise (· < ·) ∧
    ∀ x ∈ loadIdsFrom ops st, st.next_module_id ≤ x := by
  induction ops generalizing st with
  | nil => exact ⟨List.Pairwise.nil, by intro x hx; cases hx⟩
  | cons op ops ih =>
    have hcons : loadIdsFrom (op :: ops) st =
        loadIdOf op st ++ loadIdsFrom ops (wamrStep op st) := rfl
    rcases loadIdOf_spec op st with ⟨h0, hstep⟩ | ⟨h0, hstep⟩
    · rw [hcons, h0, List.nil_append] at hm ⊢
      have hih := ih (wamrStep op st) (by rw [hstep]; exact hm)
      refine ⟨hih.1, fun x hx => ?_⟩
      have := hih.2 x hx
      rw [hstep] at this
      exact this
    · rw [hcons, h0, List.singleton_append] at hm ⊢
      by_cases hr : loadIdsFrom ops (wamrStep op st) = []
      · rw [hr]
        refine ⟨by simp, fun x hx => ?_⟩
        rcases List.mem_singleton.1 hx with rfl
        exact Nat.le_refl _
      · have hlen : 0 < (loadIdsFrom ops (wamrStep op st)).length :=
          List.length_pos.2 hr
        rw [List.length_cons] at hm
        have hlt : st.next_module_id + 1 < UINT32_MOD := by omega
        have hstep2 : (wamrStep op st).next_module_id =
            st.next_module_id + 1 := by
          rw [hstep, Nat.mod_eq_of_lt hlt]
        have hih := ih (wamrStep op st) (by rw [hstep2]; omega)
        constructor
        · refine List.pairwise_cons.2 ⟨fun b hb => ?_, hih.1⟩
          have := hih.2 b hb
          rw [hstep2] at this
          omega
        · intro x hx
          rcases List.mem_cons.1 hx with rfl | hx
          · exact Nat.le_refl _
          · have := hih.2 x hx
            rw [hstep2] at this
            omega

/-- Instance-id analogue of `loadIdsFrom_pairwise_lb`. -/
theorem instIdsFrom_pairwise_lb (ops : List WamrOp) (st : WamrState)
    (hi : st.next_instance_id + (instIdsFrom ops st).length ≤ UINT32_MOD) :
    (instIdsFrom ops st).Pairwise (· < ·) ∧
    ∀ x ∈ instIdsFrom ops st, st.next_instance_id ≤ x := by
  induction ops generalizing st with
  | nil => exact ⟨List.Pairwise.nil, by intro x hx; cases hx⟩
  | cons op ops ih =>
    have hcons : instIdsFrom (op :: ops) st =
        instIdOf op st ++ instIdsFrom ops (wamrStep op st) := rfl
    rcases instIdOf_spec op st with ⟨h0, hstep⟩ | ⟨h0, hstep⟩
    · rw [hcons, h0, List.nil_append] at hi ⊢
      have hih := ih (wamrStep op st) (by rw [hstep]; exact hi)
      refine ⟨hih.1, fun x hx => ?_⟩
      have := hih.2 x hx
      rw [hstep] at this
      exact this
    · rw [hcons, h0, List.singleton_append] at hi ⊢
      by_cases hr : instIdsFrom ops (wamrStep op st) = []
      · rw [hr]
        refine ⟨by simp, fun x hx => ?_⟩
        rcases List.mem_singleton.1 hx with rfl
        exact Nat.le_refl _
      · have hlen : 0 < (instIdsFrom ops (wamrStep op st)).length :=
          List.length_pos.2 hr
        rw [List.length_cons] at hi
        have hlt : st.next_instance_id + 1 < UINT32_MOD := by omega
        have hstep2 : (wamrStep op st).next_instance_id =
            st.next_instance_id + 1 := by
          rw [hstep, Nat.mod_eq_of_lt hlt]
        have hih := ih (wamrStep op st) (by rw [hstep2]; omega)
        constructor
        · refine List.pairwise_cons.2 ⟨fun b hb => ?_, hih.1⟩
          have := hih.2 b hb
          rw [hstep2] at this
          omega
        · intro x hx
          rcases List.mem_cons.1 hx with rfl | hx
          · exact Nat.le_refl _
          · have := hih.2 x hx
            rw [hstep2] at this
            omega

/-- The operation "load a module the engine accepts (handle 7)". -/
def opLoadTest : WamrOp := .opLoad (some 7) false 100 false

/-- The operation "instantiate module 1 (engine handles 3 and 4)". -/
def opInstTest : WamrOp := .opInst (some 3) (some 4) 1

/-- A registry state whose `uint32_t` id counters hold 2^32 - 1, the value
they reach after 2^32 - 2 successful loads (respectively instantiates),
with slots freed by `wamr_cleanup` in between; module 1 occupies slot 0,
every other slot is free. -/
def stWrap : WamrState :=
  { wamr_initialized := true
    modules := ⟨1, 7, true⟩ :: List.replicate 15 ⟨0, 0, false⟩
    instances := List.replicate MAX_INSTANCES ⟨0, 0, 0, false⟩
    next_module_id := 4294967295
    next_instance_id := 4294967295 }

/-- C3 counterexample: with the counter at 2^32 - 1, two successful
`wamr_load_module` calls issue ids 4294967295 and then 0 — the `uint32_t`
post-increment wraps, so the later id is NOT strictly greater than the
earlier one and the counter re-enters the already-issued range; likewise
for two successful `wamr_instantiate` calls. -/
theorem wamr_ids_claim_counterexample :
    loadIdsFrom [opLoadTest, opLoadTest] stWrap = [4294967295, 0] ∧
    ¬ (loadIdsFrom [opLoadTest, opLoadTest] stWrap).Pairwise (· < ·) ∧
    instIdsFrom [opInstTest, opInstTest] stWrap = [4294967295, 0] ∧
    ¬ (instIdsFrom [opInstTest, opInstTest] stWrap).Pairwise (· < ·) := by
  refine ⟨rfl, fun h => ?_, rfl, fun h => ?_⟩
  · have h2 : ([4294967295, 0] : List Nat).Pairwise (· < ·) := h
    have := (List.pairwise_cons.1 h2).1 0 (by simp)
    omega
  · have h2 : ([4294967295, 0] : List Nat).Pairwise (· < ·) := h
    have := (List.pairwise_cons.1 h2).1 0 (by simp)
    omega

/-- C3 as amended: the ids are drawn from `uint32_t` counters, so they are
strictly increasing in call order (hence never reissued) exactly as long as
the counter does not wrap: along any trace in which the starting counter
value plus the number of ids issued stays within 2^32, the module ids of
successful `wamr_load_module` calls are strictly increasing, and likewise
the instance ids of successful `wamr_instantiate` calls — in particular
freeing and reusing slots never reissues an id within that range. -/
theorem wamr_ids_strictly_increasing_amended (ops : List WamrOp)
    (st : WamrState)
    (hm : st.next_module_id + (loadIdsFrom ops st).length ≤ UINT32_MOD)
    (hi : st.next_instance_id + (instIdsFrom ops st).length ≤ UINT32_MOD) :
    (loadIdsFrom ops st).Pairwise (· < ·) ∧
    (instIdsFrom ops st).Pairwise (· < ·) :=
  ⟨(loadIdsFrom_pairwise_lb ops st hm).1, (instIdsFrom_pairwise_lb ops st hi).1⟩

/-- Boot-to-running trace used by the C3 witness: init, two successful
loads, one successful instantiate. -/
def opsBoot : List WamrOp := [.opInit true, opLoadTest, opLoadTest, opInstTest]

/-- Witness for C3's amended theorem: from the boot state the trace
`opsBoot` issues module ids [1, 2] and instance ids [1], within the
no-wrap bound, and they are strictly increasing. -/
theorem wamr_ids_amended_witness :
    loadIdsFrom opsBoot wamrBootState = [1, 2] ∧
    instIdsFrom opsBoot wamrBootState = [1] ∧
    wamrBootState.next_module_id +
      (loadIdsFrom opsBoot wamrBootState).length ≤ UINT32_MOD ∧
    wamrBootState.next_instance_id +
      (instIdsFrom opsBoot wamrBootState).length ≤ UINT32_MOD ∧
    (loadIdsFrom opsBoot wamrBootState).Pairwise (· < ·) ∧
    (instIdsFrom opsBoot wamrBootState).Pairwise (· < ·) :=
  ⟨by decide, by decide, by decide, by decide,
   (wamr_ids_strictly_increasing_amended opsBoot wamrBootState (by decide)
     (by decide)).1,
   (wamr_ids_strictly_increasing_amended opsBoot wamrBootState (by decide)
     (by decide)).2⟩

/-- `network_receive` never modifies the transport state (in particular it
does not close the socket, even on error). -/
theorem network_receive_preserves_state (r : RecvResult) (ns : NetState) :
    (network_receive r ns).2.2 = ns := by
  unfold network_receive
  split
  · rfl
  · cases r with
    | data b => rfl
    | fail again => cases again <;> rfl

/-- One iteration of the main loop leaves the whole modelled state intact:
no branch of the loop body mutates the socket, the protocol state or the
registry. -/
theorem main_loop_iter_eq (r : RecvResult) (s : SysState) :
    main_loop_iter r s = s := by
  simp only [main_loop_iter, network_process, wamr_process]
  rw [network_receive_preserves_state]

/-- Any number of main-loop iterations leaves the state intact. -/
theorem main_loop_run_eq (rs : List RecvResult) (s : SysState) :
    main_loop_run rs s = s := by
  induction rs generalizing s with
  | nil => rfl
  | cons r rs ih =>
    show main_loop_run rs (main_loop_iter r s) = s
    rw [main_loop_iter_eq]
    exact ih s

/-- A disconnected system state used by the C7 witness. -/
def sysDisc : SysState := ⟨nsDisc, psReady, stInit⟩

/-- C7 (code bug): a failed TLS connect (handshake refused during
`zsock_connect`) does leave the transport `Disconnected` (`socket_fd = -1`),
and a later successful `network_connect_tls` would transition it to
`Connected` — but the control loop of `main` never calls any connect
function: from a disconnected state, any number of loop iterations leaves
the socket closed, so the promised fixed-interval retry does not exist. -/
theorem control_loop_never_retries_connect (rs : List RecvResult)
    (s : SysState) (h : s.net.socket_fd < 0) :
    (main_loop_run rs s).net.socket_fd < 0 ∧
    network_connect_tls 5 true false nsDisc = (-1, ⟨true, -1⟩) ∧
    network_connect_tls 5 true true nsDisc = (0, ⟨true, 5⟩) := by
  refine ⟨?_, rfl, rfl⟩
  rw [main_loop_run_eq]
  exact h

/-- Witness for C7: two loop iterations (one idle tick, one with inbound
data) from the concrete disconnected state leave it disconnected. -/
theorem control_loop_never_retries_connect_witness :
    sysDisc.net.socket_fd < 0 ∧
    (main_loop_run [.fail true, .data [1, 2, 3]] sysDisc).net.socket_fd < 0 :=
  ⟨by decide,
   (control_loop_never_retries_connect [.fail true, .data [1, 2, 3]] sysDisc
     (by decide)).1⟩

/-- The failure condition of claim C8, formalised literally from the
spec's words: parsing fails exactly when the string has no colon, the host
part is too long for the host buffer, or the port part (the text after the
colon) is non-numeric or zero. -/
def parse_fails_per_claim (endpoint : List Char) (host_len : Nat) : Bool :=
  match endpoint.findIdx? (fun c => c = ':') with
  | none => true
  | some colon =>
    let portPart := endpoint.drop (colon + 1)
    decide (host_len ≤ colon) ||
      !(!portPart.isEmpty && portPart.all Char.isDigit) ||
      digitsValue portPart == 0

/-- C8 counterexample: on `"h:12x"` the port part `"12x"` is non-numeric,
so by the claim parsing must fail; but `atoi` stops at the first non-digit
and `parse_endpoint` succeeds with host `"h"` and port 12. -/
theorem parse_endpoint_claim_counterexample :
    parse_fails_per_claim ['h', ':', '1', '2', 'x'] 64 = true ∧
    parse_endpoint false false false ['h', ':', '1', '2', 'x'] 64 =
      some (['h'], 12) := by
  decide

/-- C8 as amended: with non-NULL arguments, `parse_endpoint` fails exactly
when the string has no colon, the host part does not fit the host buffer
(`host_len ≤` position of the first colon), or `atoi` of the text after the
colon truncated to `uint16_t` is zero; otherwise it succeeds with the host
substring before the first colon and that truncated `atoi` value as the
port. -/
theorem parse_endpoint_amended (ep : List Char) (hl : Nat) :
    (parse_endpoint false false false ep hl = none ↔
      (∀ c ∈ ep, c ≠ ':') ∨
      ∃ i, ep.findIdx? (fun c => c = ':') = some i ∧
        (hl ≤ i ∨ ((atoi (ep.drop (i + 1))) % 65536).toNat = 0)) ∧
    (∀ i, ep.findIdx? (fun c => c = ':') = some i → i < hl →
      ((atoi (ep.drop (i + 1))) % 65536).toNat ≠ 0 →
      parse_endpoint false false false ep hl =
        some (ep.take i, ((atoi (ep.drop (i + 1))) % 65536).toNat)) := by
  have hpe : parse_endpoint false false false ep hl =
      (match ep.findIdx? (fun c => c = ':') with
       | none => none
       | some colon =>
         if hl ≤ colon then none
         else
           if ((atoi (ep.drop (colon + 1))) % 65536).toNat = 0 then none
           else some (ep.take colon,
             ((atoi (ep.drop (colon + 1))) % 65536).toNat)) := rfl
  rw [hpe]
  cases hf : ep.findIdx? (fun c => c = ':') with
  | none =>
    constructor
    · constructor
      · intro _
        exact Or.inl (fun c hc => by
          simpa using List.findIdx?_eq_none_iff.1 hf c hc)
      · intro _
        rfl
    · intro i hi
      exact absurd hi (by simp)
  | some colon =>
    have hnn : ¬ (∀ c ∈ ep, c ≠ ':') := by
      intro hall
      have h2 : ep.findIdx? (fun c => c = ':') = none :=
        List.findIdx?_eq_none_iff.2 (fun c hc => by simpa using hall c hc)
      simp [hf] at h2
    constructor
    · by_cases hcl : hl ≤ colon
      · constructor
        · intro _
          exact Or.inr ⟨colon, rfl, Or.inl hcl⟩
        · intro _
          simp [hcl]
      · by_cases hp0 : ((atoi (ep.drop (colon + 1))) % 65536).toNat = 0
        · constructor
          · intro _
            exact Or.inr ⟨colon, rfl, Or.inr hp0⟩
          · intro _
            simp [hcl, hp0]
        · constructor
          · intro hnone
            exfalso
            simp [hcl, hp0] at hnone
          · intro hrhs
            rcases hrhs with hall | ⟨i, hi, hrest⟩
            · exact absurd hall hnn
            · injection hi with hi
              subst hi
              rcases hrest with h1 | h2
              · exact absurd h1 hcl
              · exact absurd h2 hp0
    · intro i hi hlt hne
      injection hi with hi
      subst hi
      simp [Nat.not_le.2 hlt, hne]

/-- Witness for C8's amended theorem: `"h:80"` parses to host `"h"`,
port 80. -/
theorem parse_endpoint_amended_witness :
    ['h', ':', '8', '0'].findIdx? (fun c => c = ':') = some 1 ∧
    1 < 64 ∧ ((atoi ['8', '0']) % 65536).toNat ≠ 0 ∧
    parse_endpoint false false false ['h', ':', '8', '0'] 64 =
      some (['h'], 80) :=
  ⟨by decide, by decide, by decide,
   (parse_endpoint_amended ['h', ':', '8', '0'] 64).2 1 (by decide)
     (by decide) (by decide)⟩
